import Mathlib

/-!
Shallow embedding of the salazzle repository's type-effectiveness engine
(src/typing.rs) and stat-stage calculator (src/stat_stage.rs).

Floating-point values: every numeric value these modules manipulate at the
inputs we reason about (the multiplier lattice points, their pairwise
products, and the stage numerators/denominators) is a small dyadic rational
or small integer, on which f32/f64 arithmetic is exact, so we embed the
floats as rationals.  Fallible operations (Rust `unwrap`, indexing, `?`)
are embedded in the `Option` monad: `none` models a panic or an error
propagated to the caller.
-/

namespace Salazzle

/-- Embeds the absolute-value call used by the Rust code (`f32::abs`). -/
def ratAbs (q : ℚ) : ℚ := if q < 0 then -q else q

/-- Embeds `std::f32::EPSILON`, which is 2^(-23). -/
def EPSILON : ℚ := 1 / 8388608

/-- Embeds the six-value `Multiplier` enum of src/typing.rs, in declaration
order. -/
inductive Multiplier
  | Immunity
  | DoubleResistance
  | Resistance
  | Regular
  | Weakness
  | DoubleWeakness
  deriving DecidableEq, Repr, BEq

/-- Lists every `Multiplier` value, in declaration order. -/
def Multiplier.all : List Multiplier :=
  [.Immunity, .DoubleResistance, .Resistance, .Regular, .Weakness,
   .DoubleWeakness]

instance : Fintype Multiplier where
  elems := ⟨Multiplier.all, by decide⟩
  complete := fun x => by cases x <;> decide

/-- Embeds `impl Into<f32> for Multiplier`: the numeric value of each
multiplier. -/
def Multiplier.toNum : Multiplier → ℚ
  | .Regular => 1
  | .Weakness => 2
  | .DoubleWeakness => 4
  | .Resistance => 1 / 2
  | .DoubleResistance => 1 / 4
  | .Immunity => 0

/-- Embeds `Multiplier::from_num_multiplier`: decodes a numeric multiplier,
comparing against each lattice point with the EPSILON tolerance exactly as
the Rust code does; `none` embeds `Err(InvalidNumericMultiplierError)`. -/
def Multiplier.from_num_multiplier (m : ℚ) : Option Multiplier :=
  if ratAbs (m - 0) ≤ EPSILON then some .Immunity
  else if ratAbs (m - 1 / 4) ≤ EPSILON then some .DoubleResistance
  else if ratAbs (m - 1 / 2) ≤ EPSILON then some .Resistance
  else if ratAbs (m - 1) ≤ EPSILON then some .Regular
  else if ratAbs (m - 2) ≤ EPSILON then some .Weakness
  else if ratAbs (m - 4) ≤ EPSILON then some .DoubleWeakness
  else none

/-- Embeds `impl Mul<Multiplier> for Multiplier`: multiplies the numeric
values, special-cases products near 0.125 and 8.0, and otherwise decodes the
product with `from_num_multiplier(..).unwrap()`; `none` embeds the panic of
that `unwrap` on an undecodable product. -/
def Multiplier.mul (a b : Multiplier) : Option Multiplier :=
  let num := a.toNum * b.toNum
  if ratAbs (num - 1 / 8) ≤ EPSILON then some .DoubleResistance
  else if ratAbs (num - 8) ≤ EPSILON then some .DoubleWeakness
  else Multiplier.from_num_multiplier num

/-- Embeds the 13-value `StatStage` enum of src/stat_stage.rs, in declaration
order (discriminants -6 through 6). -/
inductive StatStage
  | N6 | N5 | N4 | N3 | N2 | N1 | Z0 | P1 | P2 | P3 | P4 | P5 | P6
  deriving DecidableEq, Repr

/-- Lists every `StatStage` value, in declaration order. -/
def StatStage.all : List StatStage :=
  [.N6, .N5, .N4, .N3, .N2, .N1, .Z0, .P1, .P2, .P3, .P4, .P5, .P6]

instance : Fintype StatStage where
  elems := ⟨StatStage.all, by decide⟩
  complete := fun x => by cases x <;> decide

/-- Embeds the `repr(i8)` discriminant of `StatStage` (the value of
`self as i8`, confirmed by the crate's `test_integer_conversion`). -/
def StatStage.stageVal : StatStage → ℤ
  | .N6 => -6
  | .N5 => -5
  | .N4 => -4
  | .N3 => -3
  | .N2 => -2
  | .N1 => -1
  | .Z0 => 0
  | .P1 => 1
  | .P2 => 2
  | .P3 => 3
  | .P4 => 4
  | .P5 => 5
  | .P6 => 6

/-- Numerator of `StatStage::normal_multiplier`; the Rust branch condition
`self < StatStage::Z0` (derived `Ord`, declaration order) is exactly
`stageVal self < 0`. -/
def StatStage.normal_numer (self : StatStage) : ℚ :=
  if self.stageVal < 0 then 2 else 2 + (self.stageVal : ℚ)

/-- Denominator of `StatStage::normal_multiplier`, as the code computes it:
`2.0 + (self as i8)` on the negative branch. -/
def StatStage.normal_denom (self : StatStage) : ℚ :=
  if self.stageVal < 0 then 2 + (self.stageVal : ℚ) else 2

/-- Embeds `StatStage::normal_multiplier` (numer / denom).  At every input
where the denominator is nonzero the f64 quotients taken on by this crate's
use are exact, so the rational value is the float value. -/
def StatStage.normal_multiplier (self : StatStage) : ℚ :=
  self.normal_numer / self.normal_denom

/-- Numerator of `StatStage::accuracy_multiplier`. -/
def StatStage.accuracy_numer (self : StatStage) : ℚ :=
  if self.stageVal < 0 then 3 else 3 + (self.stageVal : ℚ)

/-- Denominator of `StatStage::accuracy_multiplier`, as the code computes
it: `3.0 + (self as i8)` on the negative branch. -/
def StatStage.accuracy_denom (self : StatStage) : ℚ :=
  if self.stageVal < 0 then 3 + (self.stageVal : ℚ) else 3

/-- Embeds `StatStage::accuracy_multiplier` (numer / denom). -/
def StatStage.accuracy_multiplier (self : StatStage) : ℚ :=
  self.accuracy_numer / self.accuracy_denom

/-- Embeds `impl Add for StatStage`: sums the discriminants as integers
(i8 addition cannot overflow here: sums lie in [-12, 12]), clamps at ±6,
and otherwise matches the sum back to a variant; `none` embeds the
`panic!()` arm of the Rust match. -/
def StatStage.add (self other : StatStage) : Option StatStage :=
  let num : ℤ := self.stageVal + other.stageVal
  if num ≤ -6 then some .N6
  else if num ≥ 6 then some .P6
  else if num = -5 then some .N5
  else if num = -4 then some .N4
  else if num = -3 then some .N3
  else if num = -2 then some .N2
  else if num = -1 then some .N1
  else if num = 0 then some .Z0
  else if num = 1 then some .P1
  else if num = 2 then some .P2
  else if num = 3 then some .P3
  else if num = 4 then some .P4
  else if num = 5 then some .P5
  else none

/-- Embeds `InvalidTypingCodeError` of src/typing.rs (a payload-free error
value). -/
structure InvalidTypingCodeError : Type where
  deriving DecidableEq, Repr

/-- Embeds the 18-member `Typing` enum of src/typing.rs, in declaration
order. -/
inductive Typing
  | Normal
  | Fighting
  | Flying
  | Poison
  | Ground
  | Rock
  | Bug
  | Ghost
  | Steel
  | Fire
  | Water
  | Grass
  | Electric
  | Psychic
  | Ice
  | Dragon
  | Dark
  | Fairy
  deriving DecidableEq, Repr, BEq

/-- Lists every `Typing` value, in declaration order. -/
def Typing.allList : List Typing :=
  [.Normal, .Fighting, .Flying, .Poison, .Ground, .Rock, .Bug, .Ghost,
   .Steel, .Fire, .Water, .Grass, .Electric, .Psychic, .Ice, .Dragon,
   .Dark, .Fairy]

instance : Fintype Typing where
  elems := ⟨Typing.allList, by decide⟩
  complete := fun x => by cases x <;> decide

/-- Embeds `TryFrom<u8> for Typing`: decodes an integer code; codes 0
through 17 map to the corresponding variant and everything else fails with
`InvalidTypingCodeError`.  The u8 domain is the naturals below 256; the
definition extends the same default arm to all of ℕ. -/
def Typing.try_from (code : ℕ) : Except InvalidTypingCodeError Typing :=
  match code with
  | 0 => .ok .Normal
  | 1 => .ok .Fighting
  | 2 => .ok .Flying
  | 3 => .ok .Poison
  | 4 => .ok .Ground
  | 5 => .ok .Rock
  | 6 => .ok .Bug
  | 7 => .ok .Ghost
  | 8 => .ok .Steel
  | 9 => .ok .Fire
  | 10 => .ok .Water
  | 11 => .ok .Grass
  | 12 => .ok .Electric
  | 13 => .ok .Psychic
  | 14 => .ok .Ice
  | 15 => .ok .Dragon
  | 16 => .ok .Dark
  | 17 => .ok .Fairy
  | _ => .error ⟨⟩

/-- Embeds `Typing::num_code`: the ordinal 0-17 in declaration order. -/
def Typing.num_code : Typing → ℕ
  | .Normal => 0
  | .Fighting => 1
  | .Flying => 2
  | .Poison => 3
  | .Ground => 4
  | .Rock => 5
  | .Bug => 6
  | .Ghost => 7
  | .Steel => 8
  | .Fire => 9
  | .Water => 10
  | .Grass => 11
  | .Electric => 12
  | .Psychic => 13
  | .Ice => 14
  | .Dragon => 15
  | .Dark => 16
  | .Fairy => 17

/-- Embeds `Typing::all_typings`: maps `try_from` over 0..18, unwrapping
each result; `none` embeds a panic of one of those unwraps. -/
def Typing.all_typings : Option (List Typing) :=
  (List.range 18).mapM (fun x => (Typing.try_from x).toOption)

/-- Embeds the `TYPE_MULTIPLIERS` constant of src/typing.rs: the flattened
18 by 18 type chart in row-major order (attacker row, defender column),
entry for entry.  The float literals 0.0, 0.5, 1.0, 2.0 are the rationals
0, 1/2, 1, 2. -/
def TYPE_MULTIPLIERS : List ℚ := [
  1, 1, 1, 1, 1, 1/2, 1, 0, 1/2, 1, 1, 1, 1, 1, 1, 1, 1, 1,  -- Normal
  2, 1, 1/2, 1/2, 1, 2, 1/2, 0, 2, 1, 1, 1, 1, 1/2, 2, 1, 2, 1/2,  -- Fighting
  1, 2, 1, 1, 1, 1/2, 2, 1, 1/2, 1, 1, 2, 1/2, 1, 1, 1, 1, 1,  -- Flying
  1, 1, 1, 1/2, 1/2, 1/2, 1, 1/2, 0, 1, 1, 2, 1, 1, 1, 1, 1, 2,  -- Poison
  1, 1, 0, 2, 1, 2, 1/2, 1, 2, 2, 1, 1/2, 2, 1, 1, 1, 1, 1,  -- Ground
  1, 1/2, 2, 1, 1/2, 1, 2, 1, 1/2, 2, 1, 1, 1, 1, 2, 1, 1, 1,  -- Rock
  1, 1/2, 1/2, 1/2, 1, 1, 1, 1/2, 1/2, 1/2, 1, 2, 1, 2, 1, 1, 2, 1/2,  -- Bug
  0, 1, 1, 1, 1, 1, 1, 2, 1, 1, 1, 1, 1, 2, 1, 1, 1/2, 1,  -- Ghost
  1, 1, 1, 1, 1, 2, 1, 1, 1/2, 1/2, 1/2, 1, 1/2, 1, 2, 1, 1, 2,  -- Steel
  1, 1, 1, 1, 1, 1/2, 2, 1, 2, 1/2, 1/2, 2, 1, 1, 2, 1/2, 1, 1,  -- Fire
  1, 1, 1, 1, 2, 2, 1, 1, 1, 2, 1/2, 1/2, 1, 1, 1, 1/2, 1, 1,  -- Water
  1, 1, 1/2, 1/2, 2, 2, 1/2, 1, 1/2, 1/2, 2, 1/2, 1, 1, 1, 1/2, 1, 1,  -- Grass
  1, 1, 2, 1, 0, 1, 1, 1, 1, 1, 2, 1/2, 1/2, 1, 1, 1/2, 1, 1,  -- Electric
  1, 2, 1, 2, 1, 1, 1, 1, 1/2, 1, 1, 1, 1, 1/2, 1, 1, 0, 1,  -- Psychic
  1, 1, 2, 1, 2, 1, 1, 1, 1/2, 1/2, 1/2, 2, 1, 1, 1/2, 2, 1, 1,  -- Ice
  1, 1, 1, 1, 1, 1, 1, 1, 1/2, 1, 1, 1, 1, 1, 1, 2, 1, 0,  -- Dragon
  1, 1/2, 1, 1, 1, 1, 1, 2, 1, 1, 1, 1, 1, 2, 1, 1, 1/2, 1/2,  -- Dark
  1, 2, 1, 1/2, 1, 1, 1, 1, 1/2, 1/2, 1, 1, 1, 1, 1, 2, 2, 1   -- Fairy
]

/-- Embeds `Typing::offense_multiplier`: indexes the flattened matrix at
`self.num_code * 18 + other.num_code` and decodes the cell; `none` embeds
an out-of-bounds index panic or the panic of the decoding `unwrap`. -/
def Typing.offense_multiplier (self other : Typing) : Option Multiplier :=
  (TYPE_MULTIPLIERS.get? (self.num_code * 18 + other.num_code)).bind
    Multiplier.from_num_multiplier

/-- Embeds `Typing::defense_multiplier`: defined as
`other.offense_multiplier(self)`. -/
def Typing.defense_multiplier (self other : Typing) : Option Multiplier :=
  other.offense_multiplier self

/-- Embeds `Typing::combined_effectiveness`: the two single-type offense
multipliers combined with the `Mul` impl on `Multiplier`. -/
def Typing.combined_effectiveness (self : Typing) (other : Typing × Typing) :
    Option Multiplier := do
  let m1 ← self.offense_multiplier other.1
  let m2 ← self.offense_multiplier other.2
  Multiplier.mul m1 m2

/-- Filtering a list with a predicate that may fail (a panic inside the
Rust filter closure): `none` as soon as the predicate fails on a visited
element. -/
def filterOpt (p : Typing → Option Bool) : List Typing → Option (List Typing)
  | [] => some []
  | x :: xs => do
    let b ← p x
    let rest ← filterOpt p xs
    if b then pure (x :: rest) else pure rest

/-- Embeds `Typing::weak_to`: attackers hitting `self` for Weakness, in
ascending ordinal order. -/
def Typing.weak_to (self : Typing) : Option (List Typing) := do
  let ts ← Typing.all_typings
  filterOpt (fun t => (t.offense_multiplier self).map
    (fun m => m == Multiplier.Weakness)) ts

/-- Embeds `Typing::resistant_to`: attackers hitting `self` for
Resistance. -/
def Typing.resistant_to (self : Typing) : Option (List Typing) := do
  let ts ← Typing.all_typings
  filterOpt (fun t => (t.offense_multiplier self).map
    (fun m => m == Multiplier.Resistance)) ts

/-- Embeds `Typing::neutral_to`: attackers hitting `self` for Regular
damage. -/
def Typing.neutral_to (self : Typing) : Option (List Typing) := do
  let ts ← Typing.all_typings
  filterOpt (fun t => (t.offense_multiplier self).map
    (fun m => m == Multiplier.Regular)) ts

/-- Embeds `Typing::immune_to`: attackers `self` takes no damage from. -/
def Typing.immune_to (self : Typing) : Option (List Typing) := do
  let ts ← Typing.all_typings
  filterOpt (fun t => (t.offense_multiplier self).map
    (fun m => m == Multiplier.Immunity)) ts

/-- Embeds `Typing::weak_against`: defenders `self` hits for Weakness. -/
def Typing.weak_against (self : Typing) : Option (List Typing) := do
  let ts ← Typing.all_typings
  filterOpt (fun t => (self.offense_multiplier t).map
    (fun m => m == Multiplier.Weakness)) ts

/-- Embeds `Typing::resistant_against`: defenders `self` hits for
Resistance. -/
def Typing.resistant_against (self : Typing) : Option (List Typing) := do
  let ts ← Typing.all_typings
  filterOpt (fun t => (self.offense_multiplier t).map
    (fun m => m == Multiplier.Resistance)) ts

/-- Embeds `Typing::neutral_against`: defenders `self` hits for Regular
damage. -/
def Typing.neutral_against (self : Typing) : Option (List Typing) := do
  let ts ← Typing.all_typings
  filterOpt (fun t => (self.offense_multiplier t).map
    (fun m => m == Multiplier.Regular)) ts

/-- Embeds `Typing::immune_against`: defenders that take no damage from
`self`. -/
def Typing.immune_against (self : Typing) : Option (List Typing) := do
  let ts ← Typing.all_typings
  filterOpt (fun t => (self.offense_multiplier t).map
    (fun m => m == Multiplier.Immunity)) ts

/-- Number of occurrences of a typing in a possibly-failed query result
(zero when the query failed). -/
def countMem (a : Typing) : Option (List Typing) → ℕ
  | none => 0
  | some l => l.count a

/-- Bool form of the bucket-partition property for one defender: all four
queries succeed and every typing is counted exactly once across them. -/
def partitionOk (t : Typing) : Bool :=
  match t.weak_to, t.resistant_to, t.neutral_to, t.immune_to with
  | some w, some r, some n, some i =>
      Typing.allList.all
        (fun a => w.count a + r.count a + n.count a + i.count a == 1)
  | _, _, _, _ => false

end Salazzle

deriving instance DecidableEq for Except

namespace Salazzle

lemma all_typings_eq : Typing.all_typings = some Typing.allList := by decide

set_option maxRecDepth 100000 in
unseal Rat.add Rat.mul Rat.inv Rat.sub in
lemma offense_base : ∀ a b : Typing, ∃ m : Multiplier,
    Typing.offense_multiplier a b = some m ∧
    (m = .Immunity ∨ m = .Resistance ∨ m = .Regular ∨ m = .Weakness) := by
  decide

unseal Rat.add Rat.mul Rat.inv Rat.sub in
lemma mul_base_isSome : ∀ m₁ m₂ : Multiplier,
    (m₁ = .Immunity ∨ m₁ = .Resistance ∨ m₁ = .Regular ∨ m₁ = .Weakness) →
    (m₂ = .Immunity ∨ m₂ = .Resistance ∨ m₂ = .Regular ∨ m₂ = .Weakness) →
    (Multiplier.mul m₁ m₂).isSome = true := by
  decide

lemma filterOpt_isSome (p : Typing → Option Bool) (l : List Typing)
    (h : ∀ x : Typing, (p x).isSome = true) :
    (filterOpt p l).isSome = true := by
  induction l with
  | nil => rfl
  | cons x xs ih =>
    obtain ⟨b, hb⟩ := Option.isSome_iff_exists.mp (h x)
    obtain ⟨rest, hrest⟩ := Option.isSome_iff_exists.mp ih
    simp [filterOpt, hb, hrest]
    cases b <;> simp

lemma map_offense_isSome (f : Multiplier → Bool) (a b : Typing) :
    ((Typing.offense_multiplier a b).map f).isSome = true := by
  obtain ⟨m, hm, _⟩ := offense_base a b
  rw [hm]
  rfl

set_option maxRecDepth 400000 in
unseal Rat.add Rat.mul Rat.inv Rat.sub in
lemma partitionOk_all : ∀ t : Typing, partitionOk t = true := by decide

unseal Rat.add Rat.mul Rat.inv Rat.sub in
/-- Claim C1: the claimed clamping holds only at the exact products 0.125
and 8.0.  The specific identities Weakness * Weakness = DoubleWeakness,
Resistance * Resistance = DoubleResistance and Immunity * Weakness =
Immunity do hold, but the products 0.0625 (DoubleResistance *
DoubleResistance, a product below 0.125) and 16.0 (DoubleWeakness *
DoubleWeakness, a product above 8.0) are not clamped: the decode `unwrap`
panics (`none`), so the operator is not defined for every pair. -/
theorem mul_clamping_gap :
    Multiplier.mul .Weakness .Weakness = some .DoubleWeakness ∧
    Multiplier.mul .Resistance .Resistance = some .DoubleResistance ∧
    Multiplier.mul .Immunity .Weakness = some .Immunity ∧
    Multiplier.mul .DoubleResistance .Resistance = some .DoubleResistance ∧
    Multiplier.mul .DoubleWeakness .Weakness = some .DoubleWeakness ∧
    Multiplier.mul .DoubleResistance .DoubleResistance = none ∧
    Multiplier.mul .DoubleWeakness .DoubleWeakness = none := by
  decide

unseal Rat.add Rat.mul Rat.inv Rat.sub in
/-- Claim C2: at the extreme stages the code's formulas give 4.0 at stage
+6 as claimed, but at stage -6 the normal formula evaluates 2/(2 + (-6)) =
-0.5 (the claim says 0.25) and the accuracy formula evaluates
3/(3 + (-6)) = -1 (the claim says 3/9). -/
theorem stage_extreme_multipliers :
    StatStage.normal_multiplier .P6 = 4 ∧
    StatStage.accuracy_multiplier .P6 = 3 ∧
    StatStage.normal_multiplier .N6 = -(1/2) ∧
    StatStage.accuracy_multiplier .N6 = -1 := by
  decide

unseal Rat.add Rat.mul Rat.inv Rat.sub in
/-- Claim C3: the denominator the code computes is zero at stage -2 for
the normal-stat formula (2 + (-2)) and at stage -3 for the
accuracy/evasion formula (3 + (-3)), so both formulas do divide by zero
inside the valid stage domain, contrary to the claim. -/
theorem stage_denominator_zero :
    StatStage.normal_denom .N2 = 0 ∧ StatStage.accuracy_denom .N3 = 0 := by
  decide

set_option maxRecDepth 100000 in
/-- Claim C4: offense_multiplier is total over all 18 x 18 pairs: the
flattened index is always inside the 324-cell table and every cell
decodes, so the lookup always returns a multiplier; combined_effectiveness
and all eight enumeration queries likewise succeed on every valid Typing
input. -/
theorem typing_queries_total :
    (∀ a b : Typing,
      a.num_code * 18 + b.num_code < TYPE_MULTIPLIERS.length)
    ∧ (∀ a b : Typing, (Typing.offense_multiplier a b).isSome = true)
    ∧ (∀ a b c : Typing,
        (Typing.combined_effectiveness a (b, c)).isSome = true)
    ∧ (∀ t : Typing,
        (Typing.weak_to t).isSome = true ∧
        (Typing.resistant_to t).isSome = true ∧
        (Typing.neutral_to t).isSome = true ∧
        (Typing.immune_to t).isSome = true ∧
        (Typing.weak_against t).isSome = true ∧
        (Typing.resistant_against t).isSome = true ∧
        (Typing.neutral_against t).isSome = true ∧
        (Typing.immune_against t).isSome = true) := by
  refine ⟨by decide, ?_, ?_, ?_⟩
  · intro a b
    obtain ⟨m, hm, _⟩ := offense_base a b
    rw [hm]
    rfl
  · intro a b c
    obtain ⟨m₁, h1, hb1⟩ := offense_base a b
    obtain ⟨m₂, h2, hb2⟩ := offense_base a c
    have hce : Typing.combined_effectiveness a (b, c) =
        (Typing.offense_multiplier a b).bind
          (fun x => (Typing.offense_multiplier a c).bind
            (fun y => Multiplier.mul x y)) := rfl
    rw [hce, h1, h2]
    exact mul_base_isSome m₁ m₂ hb1 hb2
  · intro t
    refine ⟨?_, ?_, ?_, ?_, ?_, ?_, ?_, ?_⟩
    · have hq : Typing.weak_to t = filterOpt
          (fun x => (x.offense_multiplier t).map
            (fun m => m == Multiplier.Weakness)) Typing.allList := rfl
      rw [hq]
      exact filterOpt_isSome _ _ (fun x => map_offense_isSome _ x t)
    · have hq : Typing.resistant_to t = filterOpt
          (fun x => (x.offense_multiplier t).map
            (fun m => m == Multiplier.Resistance)) Typing.allList := rfl
      rw [hq]
      exact filterOpt_isSome _ _ (fun x => map_offense_isSome _ x t)
    · have hq : Typing.neutral_to t = filterOpt
          (fun x => (x.offense_multiplier t).map
            (fun m => m == Multiplier.Regular)) Typing.allList := rfl
      rw [hq]
      exact filterOpt_isSome _ _ (fun x => map_offense_isSome _ x t)
    · have hq : Typing.immune_to t = filterOpt
          (fun x => (x.offense_multiplier t).map
            (fun m => m == Multiplier.Immunity)) Typing.allList := rfl
      rw [hq]
      exact filterOpt_isSome _ _ (fun x => map_offense_isSome _ x t)
    · have hq : Typing.weak_against t = filterOpt
          (fun x => (t.offense_multiplier x).map
            (fun m => m == Multiplier.Weakness)) Typing.allList := rfl
      rw [hq]
      exact filterOpt_isSome _ _ (fun x => map_offense_isSome _ t x)
    · have hq : Typing.resistant_against t = filterOpt
          (fun x => (t.offense_multiplier x).map
            (fun m => m == Multiplier.Resistance)) Typing.allList := rfl
      rw [hq]
      exact filterOpt_isSome _ _ (fun x => map_offense_isSome _ t x)
    · have hq : Typing.neutral_against t = filterOpt
          (fun x => (t.offense_multiplier x).map
            (fun m => m == Multiplier.Regular)) Typing.allList := rfl
      rw [hq]
      exact filterOpt_isSome _ _ (fun x => map_offense_isSome _ t x)
    · have hq : Typing.immune_against t = filterOpt
          (fun x => (t.offense_multiplier x).map
            (fun m => m == Multiplier.Immunity)) Typing.allList := rfl
      rw [hq]
      exact filterOpt_isSome _ _ (fun x => map_offense_isSome _ t x)

set_option maxRecDepth 100000 in
unseal Rat.add Rat.mul Rat.inv Rat.sub in
/-- Claim C5: stage addition is saturating integer addition: the result is
always defined (the unreachable panic arm is never taken) and its value is
the integer sum clamped into [-6, 6]; in particular P4 + P4 = P6 and
N4 + N5 = N6. -/
theorem stage_add_saturates :
    (∀ a b : StatStage, ∃ c : StatStage, StatStage.add a b = some c ∧
      c.stageVal = max (-6) (min 6 (a.stageVal + b.stageVal))) ∧
    StatStage.add .P4 .P4 = some .P6 ∧
    StatStage.add .N4 .N5 = some .N6 := by
  decide

/-- Claim C6: defense_multiplier is the mirror of offense_multiplier, by
definition: defense_multiplier(b, a) = offense_multiplier(a, b) for all
pairs. -/
theorem defense_mirrors_offense :
    ∀ a b : Typing,
      Typing.defense_multiplier b a = Typing.offense_multiplier a b :=
  fun _ _ => rfl

set_option maxRecDepth 100000 in
unseal Rat.add Rat.mul Rat.inv Rat.sub in
/-- Claim C7: concrete matrix scenarios: Water attacks Fire for Weakness,
Ground attacks Flying for Immunity, Ice is super effective against exactly
Flying, Ground, Grass, Dragon (in ascending ordinal order), and Ice
against the Flying/Ground pair is DoubleWeakness. -/
theorem concrete_matrix_scenarios :
    Typing.offense_multiplier .Water .Fire = some .Weakness ∧
    Typing.offense_multiplier .Ground .Flying = some .Immunity ∧
    Typing.weak_against .Ice =
      some [.Flying, .Ground, .Grass, .Dragon] ∧
    Typing.combined_effectiveness .Ice (.Flying, .Ground) =
      some .DoubleWeakness := by
  decide

set_option maxRecDepth 10000 in
/-- Claim C8: partition property: for every defending typing t, each of
the 18 attacking typings is counted exactly once across weak_to t,
resistant_to t, neutral_to t and immune_to t. -/
theorem effectiveness_partition :
    ∀ t a : Typing,
      countMem a (Typing.weak_to t) + countMem a (Typing.resistant_to t) +
      countMem a (Typing.neutral_to t) + countMem a (Typing.immune_to t)
      = 1 := by
  intro t a
  have h := partitionOk_all t
  unfold partitionOk at h
  rcases hw : t.weak_to with _ | w
  · rw [hw] at h
    exact Bool.noConfusion h
  rcases hr : t.resistant_to with _ | r
  · rw [hw, hr] at h
    exact Bool.noConfusion h
  rcases hn : t.neutral_to with _ | n
  · rw [hw, hr, hn] at h
    exact Bool.noConfusion h
  rcases hi : t.immune_to with _ | i
  · rw [hw, hr, hn, hi] at h
    exact Bool.noConfusion h
  rw [hw, hr, hn, hi] at h
  have h' : Typing.allList.all
      (fun x => w.count x + r.count x + n.count x + i.count x == 1)
      = true := h
  have hmem : a ∈ Typing.allList := by cases a <;> simp [Typing.allList]
  have hcount := List.all_eq_true.mp h' a hmem
  simpa [countMem] using hcount

set_option maxRecDepth 10000 in
/-- Claim C9: decoding an integer typing code over the u8 domain succeeds
exactly on codes 0 through 17, returning the typing whose num_code is that
code, and fails with the InvalidTypingCode error exactly on codes above
17. -/
theorem try_from_range :
    ∀ code : Fin 256,
      ((∃ t : Typing, Typing.try_from code.val = Except.ok t ∧
          t.num_code = code.val) ↔ code.val ≤ 17) ∧
      (Typing.try_from code.val = Except.error ⟨⟩ ↔ 17 < code.val) := by
  decide

/-- Claim C10: stage addition is commutative and Z0 is a two-sided
identity (modulo the always-successful Option wrapper), including at the
saturation boundaries. -/
theorem stage_add_comm_identity :
    (∀ a b : StatStage, StatStage.add a b = StatStage.add b a) ∧
    (∀ a : StatStage,
      StatStage.add a .Z0 = some a ∧ StatStage.add .Z0 a = some a) := by
  decide

end Salazzle
